import Mathlib

/-!
Shallow embedding of the Adash dashboard builder (src/Adash2.py).

Python methods on the Adash class become functions from the builder state to
a pair of the updated state and an optional raised exception; mutation of the
accumulator lists by append becomes functional append.  External collaborators
(the pandas tabular library, the plotly express charting library and the
jinja2 templating engine) are out of scope per the specification, section 1,
and are modelled by explicit constructors and constants, each marked with a
doc comment starting "Modelled from the spec".  String literals from the
source are reproduced verbatim, with quote characters written as \x27 and
brace characters written as \x7b and \x7d.
-/

/-- Python exception value raised by a method: the source raises ValueError
with a message; subscripting the None layout raises TypeError; pandas column
indexing out of range raises IndexError. -/
inductive AdashError
  | valueError (msg : String)
  | typeError (msg : String)
  | indexError (msg : String)
  deriving DecidableEq

/-- Modelled from the spec: the external tabular data structure (a pandas
DataFrame), an ordered sequence of named columns and ordered rows, out of
scope per the specification, section 1.  Cell values are modelled as strings
since no claim depends on cell arithmetic. -/
structure DataFrame where
  columns : List String
  rows : List (List String)
  deriving DecidableEq

/-- Modelled from the spec: the external charting library figure object
(a plotly express figure).  A figure is either built by a named plotly
express constructor from the dataset and two column names, with an optional
title set later by update_layout, or it is an opaque caller supplied figure
already carrying its markup. -/
inductive Fig
  | px (kind : String) (x : String) (y : String) (title : Option String)
  | supplied (markup : String)
  deriving DecidableEq

/-- Modelled from the spec: fig.update_layout with a title text, which sets
the title of a generated figure. -/
def fig_update_title : Fig → String → Fig
  | .px k x y _, t => .px k x y (some t)
  | .supplied m, _ => .supplied m

/-- Modelled from the spec: fig.to_html(full_html=False, include_plotlyjs="cdn"),
the external conversion of a figure to embeddable markup, injective on the
figure data the builder controls. -/
def fig_to_html : Fig → String
  | .px k x y t =>
      "<div class=\x27plotly-graph-div\x27 data-kind=\x27" ++ k ++ "\x27 data-x=\x27" ++ x
        ++ "\x27 data-y=\x27" ++ y ++ "\x27 data-title=\x27" ++ t.getD "" ++ "\x27></div>"
  | .supplied m => m

/-- Modelled from the spec: DataFrame.to_html(classes=..., index=False), the
external serialization of a dataset to table markup with a css class and the
row index excluded. -/
def df_to_html (df : DataFrame) (classes : String) : String :=
  "<table class=\x27" ++ classes ++ "\x27><thead><tr>"
    ++ String.join (df.columns.map (fun c => "<th>" ++ c ++ "</th>"))
    ++ "</tr></thead><tbody>"
    ++ String.join (df.rows.map (fun r =>
         "<tr>" ++ String.join (r.map (fun v => "<td>" ++ v ++ "</td>")) ++ "</tr>"))
    ++ "</tbody></table>"

/-- Modelled from the spec: pd.read_csv, the external parser of a delimited
text file into a dataset; file contents are outside the embedding, so each
path deterministically yields a dataset derived from the path. -/
def read_csv (path : String) : DataFrame :=
  ⟨["csv:" ++ path], []⟩

/-- Modelled from the spec: pd.read_html(...)[0], the external parser taking
the first table of a markup document; file contents are outside the
embedding, so each path deterministically yields a dataset. -/
def read_html_first (path : String) : DataFrame :=
  ⟨["html:" ++ path], []⟩

/-- One slot of the layout configuration: the source builds dictionaries of
the form type = "plot", index = i. -/
structure Slot where
  type : String
  index : Nat
  deriving DecidableEq

/-- One row of the layout configuration, holding its column slots. -/
structure LayoutRow where
  columns : List Slot
  deriving DecidableEq

/-- The layout configuration dictionary built by set_layout: a list of rows. -/
structure Layout where
  rows : List LayoutRow
  deriving DecidableEq

/-- A plots_html entry: the dictionary with keys html, title, position that
adash_plot appends. -/
structure ChartFragment where
  html : String
  title : Option String
  position : String
  deriving DecidableEq

/-- The Adash builder state: the fields set by the constructor. -/
structure Adash where
  data : Option DataFrame
  layout_config : Option Layout
  plots_html : List ChartFragment
  tables_html : List String
  texts_html : List String
  deriving DecidableEq

/-- The freshly constructed builder: all fields None or empty. -/
def Adash.init : Adash :=
  ⟨none, none, [], [], []⟩

/-- Argument passed to input_file: the source accepts either a structured
dataset or a path string; the embedding types the two shapes as a sum. -/
inductive InputData
  | frame (d : DataFrame)
  | path (p : String)
  deriving DecidableEq

/-- View of an input_file argument as a dataset, for the "df" branch, which
stores the argument as the dataset.  The path case does not arise in typed
callers and maps to an inline single column dataset. -/
def input_as_frame : InputData → DataFrame
  | .frame d => d
  | .path p => ⟨[p], []⟩

/-- View of an input_file argument as a path, for the "csv" and "html"
branches.  The frame case does not arise in typed callers. -/
def input_as_path : InputData → String
  | .frame _ => ""
  | .path p => p

/-- Translation of Adash.input_file: dispatch on the file_type string, store
the dataset, or raise ValueError for an unsupported kind. -/
def input_file (a : Adash) (data : InputData) (file_type : String) :
    Adash × Option AdashError :=
  if file_type = "df" then
    ({ a with data := some (input_as_frame data) }, none)
  else if file_type = "csv" then
    ({ a with data := some (read_csv (input_as_path data)) }, none)
  else if file_type = "html" then
    ({ a with data := some (read_html_first (input_as_path data)) }, none)
  else
    (a, some (.valueError "Unsupported file type. Please use \x27df\x27, \x27csv\x27, or \x27html\x27."))

/-- One row of the dictionary built by set_layout: one slot of type "plot"
per element of range(col); a Python range of a negative integer is empty,
which Int.toNat reproduces. -/
def layout_row_of (col : Int) : LayoutRow :=
  ⟨(List.range col.toNat).map (fun i => ⟨"plot", i⟩)⟩

/-- The full dictionary built by set_layout from the layout_array argument. -/
def layout_of (layout_array : List Int) : Layout :=
  ⟨layout_array.map layout_row_of⟩

/-- Translation of Adash.set_layout: store the rows dictionary built from
layout_array.  The method performs no validation and never raises. -/
def set_layout (a : Adash) (layout_array : List Int) : Adash × Option AdashError :=
  ({ a with layout_config := some (layout_of layout_array) }, none)

/-- The slots of a layout in row major order: the source iterates the rows of
the configuration and, inside, the column slots of each row. -/
def layout_slots (cfg : Layout) : List Slot :=
  (cfg.rows.map LayoutRow.columns).flatten

/-- Total slot count of a layout: the sum over rows of the column count of
that row. -/
def total_slots (cfg : Layout) : Nat :=
  (cfg.rows.map (fun r => r.columns.length)).sum

/-- Pandas column indexing self.data.columns[i]: out of range raises
IndexError. -/
def column_at (df : DataFrame) (i : Nat) : Except AdashError String :=
  match df.columns[i]? with
  | some c => .ok c
  | none => .error (.indexError "index out of bounds for axis 0")

/-- One plotly express constructor call of the generated plot branch: the
named kind applied to the first two columns of the dataset as x and y. -/
def mk_px_kind (df : DataFrame) (kind : String) : Except AdashError Fig :=
  match column_at df 0 with
  | .error e => .error e
  | .ok x =>
    match column_at df 1 with
    | .error e => .error e
    | .ok y => .ok (.px kind x y none)

/-- The kind dispatch of the generated plot branch: the if elif chain over
plot_type, raising ValueError for an unsupported kind. -/
def mk_px_fig (df : DataFrame) (plot_type : String) : Except AdashError Fig :=
  if plot_type = "line" then mk_px_kind df "line"
  else if plot_type = "bar" then mk_px_kind df "bar"
  else if plot_type = "scatter" then mk_px_kind df "scatter"
  else if plot_type = "histogram" then mk_px_kind df "histogram"
  else .error (.valueError "Unsupported plot type. Please use \x27line\x27, \x27bar\x27, \x27scatter\x27, or \x27histogram\x27.")

/-- The title application of the generated plot branch: if title is not None,
fig.update_layout(title_text=title). -/
def apply_title (fig : Fig) : Option String → Fig
  | some t => fig_update_title fig t
  | none => fig

/-- The nested slot loop of the generated plot branch, iterating the layout
slots in row major order: each iteration dispatches on plot_type, applies the
title, converts the figure and appends one fragment; a raise inside the loop
keeps the appends already made. -/
def plot_slot_loop (df : DataFrame) (plot_type : String) (title : Option String)
    (position : String) : List Slot → Adash → Adash × Option AdashError
  | [], a => (a, none)
  | _ :: rest, a =>
    match mk_px_fig df plot_type with
    | .error e => (a, some e)
    | .ok fig =>
      plot_slot_loop df plot_type title position rest
        { a with plots_html := a.plots_html ++
            [⟨fig_to_html (apply_title fig title), title, position⟩] }

/-- Translation of Adash.adash_plot: raise ValueError when both the dataset
and the figure are absent; with a supplied figure append one fragment; else
subscript the layout configuration (TypeError when it is None) and run the
slot loop. -/
def adash_plot (a : Adash) (fig : Option Fig) (plot_type : String)
    (title : Option String) (position : String) : Adash × Option AdashError :=
  match fig with
  | some f =>
      ({ a with plots_html := a.plots_html ++ [⟨fig_to_html f, title, position⟩] }, none)
  | none =>
    match a.data with
    | none =>
        (a, some (.valueError "No data or figure provided. Please input data or pass a Plotly figure."))
    | some df =>
      match a.layout_config with
      | none => (a, some (.typeError "\x27NoneType\x27 object is not subscriptable"))
      | some cfg => plot_slot_loop df plot_type title position (layout_slots cfg) a

/-- Argument passed to adash_table: a dataset, a path string, or any other
Python value (which the source silently ignores, since its isinstance chain
has no final else). -/
inductive TableData
  | frame (d : DataFrame)
  | path (s : String)
  | otherValue
  deriving DecidableEq

/-- Translation of Adash.adash_table: dispatch on the argument shape and the
path suffix, render and append one table, or raise ValueError; with no
argument use the stored dataset, raising ValueError when none is loaded. -/
def adash_table (a : Adash) (data : Option TableData) : Adash × Option AdashError :=
  match data with
  | some (.frame d) =>
      ({ a with tables_html := a.tables_html ++ [df_to_html d "display"] }, none)
  | some (.path s) =>
      if s.endsWith ".csv" then
        ({ a with tables_html := a.tables_html ++ [df_to_html (read_csv s) "display"] }, none)
      else if s.endsWith ".html" then
        ({ a with tables_html := a.tables_html ++ [df_to_html (read_html_first s) "display"] }, none)
      else
        (a, some (.valueError "Unsupported file format. Please use a DataFrame, CSV, or HTML file."))
  | some .otherValue => (a, none)
  | none =>
    match a.data with
    | some d =>
        ({ a with tables_html := a.tables_html ++ [df_to_html d "display"] }, none)
    | none =>
        (a, some (.valueError "No data available. Please input data first."))

/-- Translation of _get_text_position_class: the if elif chain over position
with the center fallback. -/
def get_text_position_class (position : String) : String :=
  if position = "left" then "text-left"
  else if position = "right" then "text-right"
  else if position = "justify" then "text-justify"
  else if position = "start" then "text-start"
  else if position = "end" then "text-end"
  else "text-center"

/-- Translation of _get_title_position_class: the narrower if elif chain over
position with the center fallback. -/
def get_title_position_class (position : String) : String :=
  if position = "left" then "text-left"
  else if position = "right" then "text-right"
  else "text-center"

/-- Python truthiness of an optional string parameter defaulting to None: an
absent value and the empty string are falsy. -/
def truthy_str : Option String → Bool
  | none => false
  | some s => s ≠ ""

/-- Python truthiness of an optional list parameter defaulting to None: an
absent value and the empty list are falsy. -/
def truthy_list : Option (List String) → Bool
  | none => false
  | some l => l ≠ []

/-- The text_html string built by Adash.adash_text before the append: heading,
then one paragraph per line, then the ordered list block, then the unordered
list block.  The heading and paragraph literals are Python f-strings and
interpolate the resolved position class; the two list literals in the source
lack the f prefix, so they emit the verbatim placeholder text
\x7bposition_class\x7d instead of the resolved class. -/
def text_out (heading : Option String) (textlines ordered_list unordered_list : Option (List String))
    (position : String) : String :=
  let position_class := get_text_position_class position
  let t := ""
  let t := if truthy_str heading then
      t ++ "<h2 class=\x27text-2xl font-bold " ++ position_class ++ "\x27>" ++ heading.getD "" ++ "</h2>"
    else t
  let t := if truthy_list textlines then
      t ++ String.join ((textlines.getD []).map (fun line =>
        "<p class=\x27mt-2 " ++ position_class ++ "\x27>" ++ line ++ "</p>"))
    else t
  let t := if truthy_list ordered_list then
      t ++ "<ol class=\x27mt-2 list-decimal list-inside \x7bposition_class\x7d\x27>"
        ++ String.join ((ordered_list.getD []).map (fun item => "<li>" ++ item ++ "</li>"))
        ++ "</ol>"
    else t
  let t := if truthy_list unordered_list then
      t ++ "<ul class=\x27mt-2 list-disc list-inside \x7bposition_class\x7d\x27>"
        ++ String.join ((unordered_list.getD []).map (fun item => "<li>" ++ item ++ "</li>"))
        ++ "</ul>"
    else t
  t

/-- Translation of Adash.adash_text: build the text string and append it; the
method has no raise path. -/
def adash_text (a : Adash) (heading : Option String)
    (textlines ordered_list unordered_list : Option (List String))
    (position : String) : Adash × Option AdashError :=
  ({ a with texts_html := a.texts_html ++
      [text_out heading textlines ordered_list unordered_list position] }, none)

/-- The title heading rendered for one chart fragment by render_dashboard: an
h3 styled with the title position class when the stored title is truthy,
empty otherwise. -/
def plot_title_html (p : ChartFragment) : String :=
  if truthy_str p.title then
    "<h3 class=\x27text-xl font-semibold " ++ get_title_position_class p.position
      ++ "\x27>" ++ p.title.getD "" ++ "</h3>"
  else ""

/-- One block of plots_content: the optional title heading, a newline, the
chart markup and a trailing newline, as accumulated by the loop of
render_dashboard. -/
def plot_block (p : ChartFragment) : String :=
  plot_title_html p ++ "\n" ++ p.html ++ "\n"

/-- The plots_content accumulator of render_dashboard: the concatenation of
the block of every chart fragment in insertion order. -/
def plots_markup (ps : List ChartFragment) : String :=
  String.join (ps.map plot_block)

/-- Segment of the embedded page template before the first title
substitution. -/
def template_part1 : String :=
  "\n        <!DOCTYPE html>\n        <html lang=\"en\">\n        <head>\n            <meta charset=\"UTF-8\">\n            <meta name=\"viewport\" content=\"width=device-width, initial-scale=1.0\">\n            <title>"

/-- Segment of the embedded page template between the first and the second
title substitution. -/
def template_part2 : String :=
  "</title>\n            <link href=\"https://cdn.datatables.net/1.13.4/css/jquery.dataTables.min.css\" rel=\"stylesheet\">\n            <link href=\"https://cdn.datatables.net/1.13.4/css/dataTables.bootstrap4.min.css\" rel=\"stylesheet\">\n            <link href=\"https://cdn.jsdelivr.net/npm/tailwindcss@^2/dist/tailwind.min.css\" rel=\"stylesheet\">\n        </head>\n        <body>\n            <div class=\"container mx-auto p-4\">\n                <h1 class=\"text-3xl font-bold mb-4\">"

/-- Segment of the embedded page template between the second title
substitution and the content substitution. -/
def template_part3 : String :=
  "</h1>\n                "

/-- Segment of the embedded page template after the content substitution:
the closing container, the script tags and the table interactivity
initialization. -/
def template_part4 : String :=
  "\n            </div>\n\n            <script src=\"https://code.jquery.com/jquery-3.6.0.min.js\"></script>\n            <script src=\"https://cdn.datatables.net/1.13.4/js/jquery.dataTables.min.js\"></script>\n            <script>\n                $(document).ready(function() \x7b\n                    $(\x27table\x27).DataTable(\x7b\n                        \"pagingType\": \"simple_numbers\",\n                        \"lengthMenu\": [10, 25, 50, 75, 100],\n                        \"pageLength\": 10,\n                        \"responsive\": true,\n                        \"autoWidth\": false,\n                        \"searching\": true,\n                        \"ordering\": true,\n                        \"info\": true,\n                        \"language\": \x7b\n                            \"search\": \"Search:\",\n                            \"lengthMenu\": \"Show _MENU_ entries\",\n                            \"info\": \"Showing _START_ to _END_ of _TOTAL_ entries\",\n                            \"paginate\": \x7b\n                                \"first\": \"First\",\n                                \"last\": \"Last\",\n                                \"next\": \"Next\",\n                                \"previous\": \"Previous\"\n                            \x7d\n                        \x7d\n                    \x7d);\n                \x7d);\n            </script>\n        </body>\n        </html>\n        "

/-- Modelled from the spec: the external templating engine substitution
(jinja2 Template.render) of the title and the content into the embedded page
template; plain template text passes through verbatim and each substitution
site receives the given value. -/
def template_render (title content : String) : String :=
  template_part1 ++ title ++ template_part2 ++ title ++ template_part3
    ++ content ++ template_part4

/-- Translation of Adash.render_dashboard: join the tables with newlines,
join the texts with newlines, accumulate the plot blocks, concatenate the
three in that fixed order and substitute into the template.  The method reads
the state and assigns no field, so the post state is the input state. -/
def render_dashboard (a : Adash) (title : String) : String × Adash :=
  let tables_content := String.intercalate "\n" a.tables_html
  let texts_content := String.intercalate "\n" a.texts_html
  let plots_content := plots_markup a.plots_html
  let content_html := tables_content ++ texts_content ++ plots_content
  (template_render title content_html, a)

/-- One builder call of the three fragment producing operations, for stating
properties of interleaved call sequences. -/
inductive DashOp
  | opTable (data : Option TableData)
  | opText (heading : Option String) (textlines ordered_list unordered_list : Option (List String)) (position : String)
  | opChart (fig : Option Fig) (plot_type : String) (title : Option String) (position : String)

/-- Apply one builder call to a state. -/
def apply_op (a : Adash) : DashOp → Adash × Option AdashError
  | .opTable d => adash_table a d
  | .opText h tl ol ul p => adash_text a h tl ol ul p
  | .opChart f pt t p => adash_plot a f pt t p

/-- Run a sequence of builder calls left to right, keeping the state each
call leaves behind. -/
def run_ops (a : Adash) : List DashOp → Adash
  | [] => a
  | op :: rest => run_ops (apply_op a op).fst rest

/-- The table markups one adash_table call appends, as a function of the
stored dataset and the argument: one markup on success, none on a raise or
on the silently ignored argument shape. -/
def table_out (d : Option DataFrame) : Option TableData → List String
  | some (.frame x) => [df_to_html x "display"]
  | some (.path s) =>
      if s.endsWith ".csv" then [df_to_html (read_csv s) "display"]
      else if s.endsWith ".html" then [df_to_html (read_html_first s) "display"]
      else []
  | some .otherValue => []
  | none =>
      match d with
      | some x => [df_to_html x "display"]
      | none => []

/-- The chart fragment the generated plot branch appends for each slot. -/
def auto_chart_fragment (df : DataFrame) (plot_type : String) (title : Option String)
    (position : String) : ChartFragment :=
  ⟨fig_to_html (apply_title (Fig.px plot_type ((df.columns[0]?).getD "") ((df.columns[1]?).getD "") none) title),
   title, position⟩

/-- The chart fragments one adash_plot call appends, as a function of the
stored dataset, the stored layout and the arguments: one fragment for a
supplied figure, one fragment per layout slot for a generated plot, none on
a raise. -/
def chart_out (d : Option DataFrame) (l : Option Layout) (fig : Option Fig)
    (plot_type : String) (title : Option String) (position : String) : List ChartFragment :=
  match fig with
  | some f => [⟨fig_to_html f, title, position⟩]
  | none =>
    match d with
    | none => []
    | some df =>
      match l with
      | none => []
      | some cfg =>
        match mk_px_fig df plot_type with
        | .error _ => []
        | .ok f => (layout_slots cfg).map (fun _ => ⟨fig_to_html (apply_title f title), title, position⟩)

/-- The per category fragment output of one builder call: the table markups,
the text markups and the chart fragments it appends. -/
def op_out (d : Option DataFrame) (l : Option Layout) :
    DashOp → List String × List String × List ChartFragment
  | .opTable arg => (table_out d arg, [], [])
  | .opText h tl ol ul p => ([], [text_out h tl ol ul p], [])
  | .opChart f pt t p => ([], [], chart_out d l f pt t p)

/-- The per category fragment output of a sequence of builder calls: each
category collects the outputs of its own calls, in call order, unaffected by
calls of the other categories. -/
def ops_outs (d : Option DataFrame) (l : Option Layout) :
    List DashOp → List String × List String × List ChartFragment
  | [] => ([], [], [])
  | op :: rest =>
    let o := op_out d l op
    let r := ops_outs d l rest
    (o.1 ++ r.1, o.2.1 ++ r.2.1, o.2.2 ++ r.2.2)

/-- A fixed two column dataset used by the concrete instances below. -/
def df0 : DataFrame :=
  ⟨["Date", "Value"], [["d1", "10"]]⟩

/-- A builder with the dataset loaded and an empty layout array stored. -/
def a3 : Adash :=
  (set_layout (input_file Adash.init (.frame df0) "df").fst []).fst

/-- A builder with the dataset loaded and a one slot layout stored. -/
def a3b : Adash :=
  (set_layout (input_file Adash.init (.frame df0) "df").fst [1]).fst

/-- A builder with the dataset loaded and a five slot layout stored. -/
def a5 : Adash :=
  (set_layout (input_file Adash.init (.frame df0) "df").fst [2, 3]).fst

theorem layout_slots_length (cfg : Layout) :
    (layout_slots cfg).length = total_slots cfg := by
  simp only [layout_slots, total_slots, List.length_flatten, List.map_map]
  rfl

theorem plot_slot_loop_ok (df : DataFrame) (pt : String) (t : Option String) (pos : String)
    (f : Fig) (h : mk_px_fig df pt = .ok f) :
    ∀ (slots : List Slot) (a : Adash),
      plot_slot_loop df pt t pos slots a =
        ({ a with plots_html := a.plots_html ++
            slots.map (fun _ => ⟨fig_to_html (apply_title f t), t, pos⟩) }, none) := by
  intro slots
  induction slots with
  | nil => intro a; simp [plot_slot_loop]
  | cons s rest ih =>
    intro a
    simp only [plot_slot_loop, h, List.map_cons]
    rw [ih]
    simp [List.append_assoc]

theorem plot_slot_loop_err (df : DataFrame) (pt : String) (t : Option String) (pos : String)
    (e : AdashError) (h : mk_px_fig df pt = .error e)
    (slots : List Slot) (a : Adash) (hne : slots ≠ []) :
    plot_slot_loop df pt t pos slots a = (a, some e) := by
  cases slots with
  | nil => exact absurd rfl hne
  | cons s rest => simp [plot_slot_loop, h]

theorem mk_px_kind_ok (df : DataFrame) (k : String) (h2 : 2 ≤ df.columns.length) :
    mk_px_kind df k =
      .ok (.px k ((df.columns[0]?).getD "") ((df.columns[1]?).getD "") none) := by
  have h0 : df.columns[0]? = some df.columns[0] := List.getElem?_eq_getElem (by omega)
  have h1 : df.columns[1]? = some df.columns[1] := List.getElem?_eq_getElem (by omega)
  simp [mk_px_kind, column_at, h0, h1]

theorem mk_px_fig_ok_of_valid (df : DataFrame) (pt : String) (h2 : 2 ≤ df.columns.length)
    (hv : pt = "line" ∨ pt = "bar" ∨ pt = "scatter" ∨ pt = "histogram") :
    mk_px_fig df pt =
      .ok (.px pt ((df.columns[0]?).getD "") ((df.columns[1]?).getD "") none) := by
  rcases hv with h | h | h | h <;> subst h <;> simp [mk_px_fig, mk_px_kind_ok df _ h2]

theorem mk_px_fig_err (df : DataFrame) (pt : String)
    (hv : pt ∉ (["line", "bar", "scatter", "histogram"] : List String)) :
    mk_px_fig df pt = .error (.valueError "Unsupported plot type. Please use \x27line\x27, \x27bar\x27, \x27scatter\x27, or \x27histogram\x27.") := by
  simp only [List.mem_cons, List.not_mem_nil, or_false, not_or] at hv
  obtain ⟨h1, h2, h3, h4⟩ := hv
  simp [mk_px_fig, h1, h2, h3, h4]

theorem adash_table_fst (a : Adash) (arg : Option TableData) :
    (adash_table a arg).fst =
      { a with tables_html := a.tables_html ++ table_out a.data arg } := by
  obtain ⟨ad, al, ap, atb, atx⟩ := a
  cases arg with
  | none =>
    cases ad with
    | some d => simp [adash_table, table_out]
    | none => simp [adash_table, table_out]
  | some td =>
    cases td with
    | frame d => simp [adash_table, table_out]
    | otherValue => simp [adash_table, table_out]
    | path s =>
      by_cases hc : s.endsWith ".csv"
      · simp [adash_table, table_out, hc]
      · by_cases hh : s.endsWith ".html"
        · simp [adash_table, table_out, hc, hh]
        · simp [adash_table, table_out, hc, hh]

theorem adash_plot_fst (a : Adash) (fig : Option Fig) (pt : String) (t : Option String)
    (pos : String) :
    (adash_plot a fig pt t pos).fst =
      { a with plots_html := a.plots_html ++ chart_out a.data a.layout_config fig pt t pos } := by
  obtain ⟨ad, al, ap, atb, atx⟩ := a
  cases fig with
  | some f => simp [adash_plot, chart_out]
  | none =>
    cases ad with
    | none => simp [adash_plot, chart_out]
    | some df =>
      cases al with
      | none => simp [adash_plot, chart_out]
      | some cfg =>
        cases hm : mk_px_fig df pt with
        | error e =>
          cases hs : layout_slots cfg with
          | nil => simp [adash_plot, chart_out, hm, hs, plot_slot_loop]
          | cons s rest => simp [adash_plot, chart_out, hm, hs, plot_slot_loop]
        | ok f =>
          have hloop := plot_slot_loop_ok df pt t pos f hm (layout_slots cfg)
            ⟨some df, some cfg, ap, atb, atx⟩
          simp [adash_plot, chart_out, hm, hloop]

theorem apply_op_fst (a : Adash) (op : DashOp) :
    (apply_op a op).fst =
      { a with
          tables_html := a.tables_html ++ (op_out a.data a.layout_config op).1,
          texts_html := a.texts_html ++ (op_out a.data a.layout_config op).2.1,
          plots_html := a.plots_html ++ (op_out a.data a.layout_config op).2.2 } := by
  cases op with
  | opTable arg => simp [apply_op, op_out, adash_table_fst]
  | opText h tl ol ul p => simp [apply_op, op_out, adash_text]
  | opChart f pt t p => simp [apply_op, op_out, adash_plot_fst]

theorem run_ops_spec (ops : List DashOp) : ∀ (a : Adash),
    run_ops a ops =
      { a with
          tables_html := a.tables_html ++ (ops_outs a.data a.layout_config ops).1,
          texts_html := a.texts_html ++ (ops_outs a.data a.layout_config ops).2.1,
          plots_html := a.plots_html ++ (ops_outs a.data a.layout_config ops).2.2 } := by
  induction ops with
  | nil => intro a; simp [run_ops, ops_outs]
  | cons op rest ih =>
    intro a
    rw [run_ops, ih, apply_op_fst]
    simp [ops_outs, List.append_assoc]

/-- C1 counterexample: with the dataset loaded and no layout set, an
addChart call with a kind and no prebuilt chart does fail: it raises the
TypeError from subscripting the None layout, contradicting the claimed
silent no-op. -/
theorem claim_c1_counterexample :
    ({ Adash.init with data := some df0 } : Adash).layout_config = none ∧
    (adash_plot { Adash.init with data := some df0 } none "line" none "center").snd =
      some (AdashError.typeError "\x27NoneType\x27 object is not subscriptable") :=
  ⟨rfl, rfl⟩

/-- C1 (amended): if a Dataset has been loaded but no LayoutDescriptor has
been set, calling addChart with a chart kind and no prebuilt chart appends
zero chart fragments but fails with a TypeError from subscripting the absent
layout, for every kind. -/
theorem claim_c1_no_layout_raises (a : Adash) (plot_type : String)
    (title : Option String) (position : String)
    (hd : a.data.isSome = true) (hl : a.layout_config = none) :
    adash_plot a none plot_type title position =
      (a, some (AdashError.typeError "\x27NoneType\x27 object is not subscriptable")) := by
  cases hdd : a.data with
  | none => rw [hdd] at hd; simp at hd
  | some df => simp [adash_plot, hdd, hl]

/-- C1 witness: the amended statement at a concrete builder and kind. -/
theorem claim_c1_witness :
    ({ Adash.init with data := some df0 } : Adash).data.isSome = true ∧
    adash_plot { Adash.init with data := some df0 } none "bar" none "center" =
      ({ Adash.init with data := some df0 },
       some (AdashError.typeError "\x27NoneType\x27 object is not subscriptable")) :=
  ⟨rfl, claim_c1_no_layout_raises _ "bar" none "center" rfl rfl⟩

/-- C2 counterexample: set_layout on a sequence containing a negative count
raises nothing and stores a LayoutDescriptor, contradicting the claimed
InvalidLayout failure. -/
theorem claim_c2_counterexample :
    (set_layout Adash.init [-1]).snd = none ∧
    (set_layout Adash.init [-1]).fst.layout_config = some (layout_of [-1]) :=
  ⟨rfl, rfl⟩

/-- C2 (amended): set_layout never fails for any ordered sequence of integer
counts; it always stores a LayoutDescriptor in which row i carries
max(counts[i], 0) column slots, so each negative count yields an empty row
rather than an InvalidLayout error. -/
theorem claim_c2_no_validation (a : Adash) (arr : List Int) :
    (set_layout a arr).snd = none ∧
    (set_layout a arr).fst.layout_config = some (layout_of arr) ∧
    (layout_of arr).rows.map (fun r => r.columns.length) = arr.map Int.toNat := by
  refine ⟨rfl, rfl, ?_⟩
  simp [layout_of, layout_row_of, List.map_map, Function.comp]

/-- C3 counterexample: with the dataset loaded and a LayoutDescriptor set
from the empty layout array, an addChart call with the unsupported kind
"pie" raises nothing, contradicting the claimed UnsupportedChartKind
failure: the kind check sits inside the slot loop, which runs zero times. -/
theorem claim_c3_counterexample :
    a3.data.isSome = true ∧ a3.layout_config.isSome = true ∧
    adash_plot a3 none "pie" none "center" = (a3, none) :=
  ⟨rfl, rfl, rfl⟩

/-- C3 (amended): with a Dataset loaded and a LayoutDescriptor set whose
total slot count is at least one, addChart with a kind outside the
enumerated set and no prebuilt chart fails with the unsupported plot type
ValueError; with a zero slot layout the call silently appends nothing and
does not fail. -/
theorem claim_c3_unsupported_kind (a : Adash) (df : DataFrame) (cfg : Layout)
    (plot_type : String) (title : Option String) (position : String)
    (hd : a.data = some df) (hl : a.layout_config = some cfg)
    (hk : plot_type ∉ (["line", "bar", "scatter", "histogram"] : List String))
    (hs : 1 ≤ total_slots cfg) :
    adash_plot a none plot_type title position =
      (a, some (AdashError.valueError "Unsupported plot type. Please use \x27line\x27, \x27bar\x27, \x27scatter\x27, or \x27histogram\x27.")) := by
  have hm := mk_px_fig_err df plot_type hk
  have hne : layout_slots cfg ≠ [] := by
    have hlen := layout_slots_length cfg
    intro hnil
    rw [hnil] at hlen
    simp at hlen
    omega
  have heq : adash_plot a none plot_type title position =
      plot_slot_loop df plot_type title position (layout_slots cfg) a := by
    simp [adash_plot, hd, hl]
  rw [heq, plot_slot_loop_err df plot_type title position _ hm (layout_slots cfg) a hne]

/-- C3 witness: the amended statement at a concrete builder with a one slot
layout and the unsupported kind "pie". -/
theorem claim_c3_witness :
    a3b.data = some df0 ∧ 1 ≤ total_slots (layout_of [1]) ∧
    adash_plot a3b none "pie" none "center" =
      (a3b, some (AdashError.valueError "Unsupported plot type. Please use \x27line\x27, \x27bar\x27, \x27scatter\x27, or \x27histogram\x27.")) :=
  ⟨rfl, by decide,
    claim_c3_unsupported_kind a3b df0 (layout_of [1]) "pie" none "center" rfl rfl
      (by decide) (by decide)⟩

/-- C4: for every interleaved sequence of addTable, addText and addChart
calls, the rendered document body is the table markup of the table calls in
call order, then the text markup of the text calls in call order, then the
chart markup of the chart calls in call order, regardless of the
interleaving across categories. -/
theorem claim_c4_category_order (a : Adash) (ops : List DashOp) (title : String) :
    (render_dashboard (run_ops a ops) title).fst =
      template_part1 ++ title ++ template_part2 ++ title ++ template_part3 ++
        (String.intercalate "\n" (a.tables_html ++ (ops_outs a.data a.layout_config ops).1)
          ++ String.intercalate "\n" (a.texts_html ++ (ops_outs a.data a.layout_config ops).2.1)
          ++ plots_markup (a.plots_html ++ (ops_outs a.data a.layout_config ops).2.2))
        ++ template_part4 := by
  rw [run_ops_spec]
  simp [render_dashboard, template_render, String.append_assoc]

/-- C5: with a Dataset of at least two columns loaded, a LayoutDescriptor
set and a valid chart kind, a single addChart call with no prebuilt chart
succeeds and appends one generated chart fragment per layout slot in row
major slot order, exactly the total slot count of the layout. -/
theorem claim_c5_slot_count (a : Adash) (df : DataFrame) (cfg : Layout)
    (plot_type : String) (title : Option String) (position : String)
    (hd : a.data = some df) (hcols : 2 ≤ df.columns.length)
    (hl : a.layout_config = some cfg)
    (hk : plot_type = "line" ∨ plot_type = "bar" ∨ plot_type = "scatter" ∨ plot_type = "histogram")
    (_hs : 1 ≤ total_slots cfg) :
    adash_plot a none plot_type title position =
      ({ a with plots_html := a.plots_html ++
          (layout_slots cfg).map (fun _ => auto_chart_fragment df plot_type title position) },
       none) ∧
    (adash_plot a none plot_type title position).fst.plots_html.length =
      a.plots_html.length + total_slots cfg := by
  have hm := mk_px_fig_ok_of_valid df plot_type hcols hk
  have heq : adash_plot a none plot_type title position =
      plot_slot_loop df plot_type title position (layout_slots cfg) a := by
    simp [adash_plot, hd, hl]
  have hloop := plot_slot_loop_ok df plot_type title position _ hm (layout_slots cfg) a
  constructor
  · rw [heq, hloop]
    rfl
  · rw [heq, hloop]
    simp [layout_slots_length]

/-- C5 witness: the statement at a concrete builder with the two column
dataset and the layout [2, 3], whose total slot count is five. -/
theorem claim_c5_witness :
    2 ≤ df0.columns.length ∧ 1 ≤ total_slots (layout_of [2, 3]) ∧
    (adash_plot a5 none "line" (some "T") "center").fst.plots_html.length =
      a5.plots_html.length + total_slots (layout_of [2, 3]) :=
  ⟨by decide, by decide,
    (claim_c5_slot_count a5 df0 (layout_of [2, 3]) "line" (some "T") "center" rfl
      (by decide) rfl (Or.inl rfl) (by decide)).2⟩

/-- C6: evaluation at the failing input: with position left, the heading of
the built TextFragment carries the resolved class text-left, but the ordered
and the unordered list blocks carry the verbatim placeholder text for the
position class, because the two list literals in the source lack the
f-string prefix; so not every element carries the resolved alignment
class. -/
theorem claim_c6_missing_interpolation :
    get_text_position_class "left" = "text-left" ∧
    (adash_text Adash.init (some "H") none (some ["item"]) (some ["u"]) "left").fst.texts_html =
      ["<h2 class=\x27text-2xl font-bold text-left\x27>H</h2><ol class=\x27mt-2 list-decimal list-inside \x7bposition_class\x7d\x27><li>item</li></ol><ul class=\x27mt-2 list-disc list-inside \x7bposition_class\x7d\x27><li>u</li></ul>"] :=
  ⟨rfl, rfl⟩

/-- C7: a failing call mutates nothing: whenever input_file, adash_table or
adash_plot returns a raised error, the returned builder state equals the
input state, so a failed call appends no fragment and replaces no
Dataset. -/
theorem claim_c7_failed_call_no_mutation :
    (∀ (a : Adash) (d : InputData) (ft : String),
        (input_file a d ft).snd.isSome = true → (input_file a d ft).fst = a) ∧
    (∀ (a : Adash) (arg : Option TableData),
        (adash_table a arg).snd.isSome = true → (adash_table a arg).fst = a) ∧
    (∀ (a : Adash) (fig : Option Fig) (plot_type : String) (title : Option String)
        (position : String),
        (adash_plot a fig plot_type title position).snd.isSome = true →
          (adash_plot a fig plot_type title position).fst = a) := by
  refine ⟨?_, ?_, ?_⟩
  · intro a d ft h
    by_cases h1 : ft = "df"
    · simp [input_file, h1] at h
    · by_cases h2 : ft = "csv"
      · simp [input_file, h1, h2] at h
      · by_cases h3 : ft = "html"
        · simp [input_file, h1, h2, h3] at h
        · simp [input_file, h1, h2, h3]
  · intro a arg h
    cases arg with
    | none =>
      cases hd : a.data with
      | some d => simp [adash_table, hd] at h
      | none => simp [adash_table, hd]
    | some td =>
      cases td with
      | frame d => simp [adash_table] at h
      | otherValue => simp [adash_table] at h
      | path s =>
        by_cases hc : s.endsWith ".csv"
        · simp [adash_table, hc] at h
        · by_cases hh : s.endsWith ".html"
          · simp [adash_table, hc, hh] at h
          · simp [adash_table, hc, hh]
  · intro a fig pt t pos h
    cases fig with
    | some f => simp [adash_plot] at h
    | none =>
      cases hd : a.data with
      | none => simp [adash_plot, hd]
      | some df =>
        cases hl : a.layout_config with
        | none => simp [adash_plot, hd, hl]
        | some cfg =>
          have heq : adash_plot a none pt t pos =
              plot_slot_loop df pt t pos (layout_slots cfg) a := by
            simp [adash_plot, hd, hl]
          rw [heq] at h ⊢
          cases hm : mk_px_fig df pt with
          | ok f =>
            rw [plot_slot_loop_ok df pt t pos f hm (layout_slots cfg) a] at h
            simp at h
          | error e =>
            cases hsl : layout_slots cfg with
            | nil => rw [hsl] at h; simp [plot_slot_loop] at h
            | cons s rest => simp [plot_slot_loop, hm]

/-- C7 witness: the three conjuncts at concrete failing calls: an
unsupported file kind, a table request with no dataset loaded and no source
argument, and a generated chart request with no dataset. -/
theorem claim_c7_witness :
    (input_file Adash.init (.path "d.xlsx") "xlsx").fst = Adash.init ∧
    (adash_table Adash.init none).fst = Adash.init ∧
    (adash_plot Adash.init none "line" none "center").fst = Adash.init :=
  ⟨claim_c7_failed_call_no_mutation.1 Adash.init (.path "d.xlsx") "xlsx" (by decide),
   claim_c7_failed_call_no_mutation.2.1 Adash.init none (by decide),
   claim_c7_failed_call_no_mutation.2.2 Adash.init none "line" none "center" (by decide)⟩

/-- C8: render is an idempotent pure read: it returns the builder state
unchanged, and a second render of that returned state with the same title
yields the identical document string. -/
theorem claim_c8_render_idempotent (a : Adash) (title : String) :
    (render_dashboard a title).snd = a ∧
    (render_dashboard a title).fst =
      (render_dashboard (render_dashboard a title).snd title).fst :=
  ⟨rfl, rfl⟩

/-- C9: every position value outside the recognized set resolves to the
center class: text blocks recognize left, right, justify, start and end,
and chart titles recognize only left and right; anything else falls back to
text-center in each resolver. -/
theorem claim_c9_position_fallback (position : String) :
    (position ∉ (["left", "right", "justify", "start", "end"] : List String) →
      get_text_position_class position = "text-center") ∧
    (position ∉ (["left", "right"] : List String) →
      get_title_position_class position = "text-center") := by
  constructor
  · intro h
    simp only [List.mem_cons, List.not_mem_nil, or_false, not_or] at h
    obtain ⟨h1, h2, h3, h4, h5⟩ := h
    simp [get_text_position_class, h1, h2, h3, h4, h5]
  · intro h
    simp only [List.mem_cons, List.not_mem_nil, or_false, not_or] at h
    obtain ⟨h1, h2⟩ := h
    simp [get_title_position_class, h1, h2]

/-- C9 witness: the two fallbacks at concrete unrecognized positions: "top"
for text blocks and "justify" for chart titles, which only the text resolver
recognizes. -/
theorem claim_c9_witness :
    ("top" ∉ (["left", "right", "justify", "start", "end"] : List String) ∧
      get_text_position_class "top" = "text-center") ∧
    ("justify" ∉ (["left", "right"] : List String) ∧
      get_title_position_class "justify" = "text-center") :=
  ⟨⟨by decide, (claim_c9_position_fallback "top").1 (by decide)⟩,
   ⟨by decide, (claim_c9_position_fallback "justify").2 (by decide)⟩⟩

/-- C10: addText with every content argument absent appends exactly one
TextFragment whose markup is the empty string, and addText never fails for
any argument combination: it always appends exactly one fragment and raises
nothing. -/
theorem claim_c10_addtext_total (a : Adash) (heading : Option String)
    (textlines ordered_list unordered_list : Option (List String)) (position : String) :
    adash_text a none none none none position =
      ({ a with texts_html := a.texts_html ++ [""] }, none) ∧
    (adash_text a heading textlines ordered_list unordered_list position).snd = none ∧
    (adash_text a heading textlines ordered_list unordered_list position).fst.texts_html.length =
      a.texts_html.length + 1 := by
  refine ⟨rfl, rfl, ?_⟩
  simp [adash_text]
